import Mathlib

/-!
Verification of the check-hash batch integrity checker.

The development embeds the three Python modules of the repository:
  - check_hash.py      : the accepted hash-function selectors and the main flow
  - compare_hashes.py  : digest computation and mismatch detection/reporting
  - exceptions.py      : the UnequalFileHashNumberError exception class

Modelling conventions: file paths and hash strings are Lean Strings
(treated as ASCII, which covers every string the program compares); file
contents are lists of byte values (List Nat); the filesystem is a pair of
partial functions (path resolution and file contents); the underlying
cryptographic hash primitive supplied by the hashlib library is a
parameter of type String -> List Nat -> List Nat mapping an algorithm
name and the file contents to the raw digest bytes.  Exceptions are
modelled with Except / Option of an error type.  A Python generator of
values that may raise while being advanced is modelled as a list of
Except values: pulling the next element either yields a value or raises.
-/

deriving instance DecidableEq for Except

/-- The lower method of Python strings, modelled over the ASCII
characters the program compares: each character is lower-cased. -/
def str_lower (s : String) : String :=
  ⟨s.data.map Char.toLower⟩

/-- Errors the embedded code can raise: FileNotFoundError (raised by
Path.resolve with strict=True, or by opening a missing file),
the ValueError raised by hashlib for an unknown algorithm name, the
ValueError raised by zip with strict=True on unequal iterables, and
UnequalFileHashNumberError raised in main with both counts. -/
inductive PyErr where
  | fileNotFound (path : String)
  | unsupportedAlgorithm (hash_func : String)
  | zipLengthMismatch
  | unequalFileHashNumber (files_num hashes_num : Nat)
deriving DecidableEq, Repr

/-- The filesystem the program runs against: resolvePath models
pathlib.Path.resolve(strict=True) returning the canonical absolute path
of an existing file (none when resolution fails), and contents models
opening a resolved path for binary reading and reading it fully
(none when the file cannot be opened or read). -/
structure FileSystem where
  resolvePath : String → Option String
  contents : String → Option (List Nat)

/-- From check_hash.py, enum _HashFunction: the accepted selector strings.
StrEnum members created with enum.auto take the lower-cased member name,
so the members MD5, SHA1, SHA225, SHA256, SHA384, SHA512 give exactly
these six strings (note the source spells SHA225, not SHA224). -/
def accepted_hash_functions : List String :=
  ["md5", "sha1", "sha225", "sha256", "sha384", "sha512"]

/-- The algorithm names the Python hashlib module guarantees to support
(hashlib.algorithms_guaranteed); hashlib.file_digest raises ValueError
for a name outside this set and digests successfully for a name inside
it.  Modelled from the documented behaviour of the standard library that
compare_hashes.py delegates to. -/
def hashlib_algorithms_guaranteed : List String :=
  ["md5", "sha1", "sha224", "sha256", "sha384", "sha512",
   "sha3_224", "sha3_256", "sha3_384", "sha3_512",
   "shake_128", "shake_256", "blake2b", "blake2s"]

/-- Character for one hex nibble, matching the lowercase hexadecimal
encoding used by hexdigest: 0-9 then a-f. -/
def hexDigitChar (n : Nat) : Char :=
  if n < 10 then Char.ofNat (48 + n) else Char.ofNat (87 + n)

/-- The hexdigest method of a hashlib digest object: each byte becomes
two lowercase hexadecimal characters, high nibble first. -/
def hexdigest (bs : List Nat) : String :=
  ⟨bs.flatMap fun b => [hexDigitChar (b / 16 % 16), hexDigitChar (b % 16)]⟩

/-- From compare_hashes.py, class _HashesMismatch: a file, the hash
calculated from it, and its expected hash. -/
structure HashesMismatch where
  file : String
  file_hash : String
  expected_hash : String
deriving DecidableEq, Repr

/-- From compare_hashes.py, _digest_hex_file_hash: opens the file for
binary reading (an unopenable file raises), feeds it to
hashlib.file_digest under the named algorithm (an unknown algorithm
name raises ValueError), and returns the lowercase hexadecimal digest. -/
def digest_hex_file_hash (fsys : FileSystem) (hash : String → List Nat → List Nat)
    (file : String) (hash_func : String) : Except PyErr String :=
  match fsys.contents file with
  | none => .error (.fileNotFound file)
  | some data =>
    if hash_func ∈ hashlib_algorithms_guaranteed then
      .ok (hexdigest (hash hash_func data))
    else
      .error (.unsupportedAlgorithm hash_func)

/-- From compare_hashes.py, _check_hash_mismatches: iterate the files and
the expected hashes in lockstep with zip strict, digest each file, and
yield a mismatch whenever the digest differs from the lower-cased
expected hash.  The files iterable is a stream whose elements may raise
when pulled (in main it is a generator resolving each path strictly).
The result is the list of mismatches yielded before the generator
finished or raised, together with the raised error if any: zip pulls
from files first, then from expected hashes, and raises ValueError when
exactly one of them is exhausted. -/
def check_hash_mismatches (fsys : FileSystem) (hash : String → List Nat → List Nat) :
    List (Except PyErr String) → List String → String →
    List HashesMismatch × Option PyErr
  | [], [], _ => ([], none)
  | [], _ :: _, _ => ([], some .zipLengthMismatch)
  | .error e :: _, _, _ => ([], some e)
  | .ok _ :: _, [], _ => ([], some .zipLengthMismatch)
  | .ok file :: fs_tail, expected_hash :: hs_tail, hash_func =>
    match digest_hex_file_hash fsys hash file hash_func with
    | .error e => ([], some e)
    | .ok file_hash =>
      let rest := check_hash_mismatches fsys hash fs_tail hs_tail hash_func
      if file_hash = str_lower expected_hash then rest
      else (⟨file, file_hash, expected_hash⟩ :: rest.1, rest.2)

/-- The four lines printed by compare_files_to_hashes for one mismatch:
the file line, the computed hash line, the expected value line (in its
original case), and the blank separator produced by the bare print. -/
def mismatch_report_lines (m : HashesMismatch) : List String :=
  ["File doesn't match expected value: " ++ m.file,
   "File hash: " ++ m.file_hash,
   "Expected value: " ++ m.expected_hash,
   ""]

/-- From compare_hashes.py, compare_files_to_hashes: consume the
mismatch generator, printing the report block for each mismatch as it
arrives.  Returns the printed lines in order and the error the
generator raised, if any; lines printed before the error remain. -/
def compare_files_to_hashes (fsys : FileSystem) (hash : String → List Nat → List Nat)
    (files : List (Except PyErr String)) (expected_hashes : List String)
    (hash_func : String) : List String × Option PyErr :=
  let r := check_hash_mismatches fsys hash files expected_hashes hash_func
  (r.1.flatMap mismatch_report_lines, r.2)

/-- Path.resolve with strict=True: the canonical absolute path, raising
FileNotFoundError when the file does not exist. -/
def resolve_strict (fsys : FileSystem) (p : String) : Except PyErr String :=
  match fsys.resolvePath p with
  | some a => .ok a
  | none => .error (.fileNotFound p)

/-- From check_hash.py, main after argument parsing: with the parsed
file paths, expected hashes and hash function in hand, first compare the
two lengths and raise UnequalFileHashNumberError with both counts if
they differ; otherwise build the lazy generator resolving each file
strictly and hand everything to compare_files_to_hashes.  The result is
the printed lines and the raised error, if any. -/
def main_run (fsys : FileSystem) (hash : String → List Nat → List Nat)
    (files : List String) (expected_hashes : List String)
    (hash_func : String) : List String × Option PyErr :=
  if files.length ≠ expected_hashes.length then
    ([], some (.unequalFileHashNumber files.length expected_hashes.length))
  else
    compare_files_to_hashes fsys hash (files.map (resolve_strict fsys))
      expected_hashes hash_func

/-- From exceptions.py, class UnequalFileHashNumberError(ValueError):
the stored fields behind the files_num and hashes_num properties. -/
structure UnequalFileHashNumberError where
  files_num : Int
  hashes_num : Int
deriving DecidableEq, Repr

/-- The base classes of UnequalFileHashNumberError, from its class
declaration: it derives from ValueError. -/
def unequalFileHashNumberErrorBases : List String := ["ValueError"]

/-- The constructor of UnequalFileHashNumberError: asserts that both
counts are non-negative (an AssertionError carrying the shown message
otherwise, files first as in the source) and stores them in the private
fields the two properties return. -/
def mk_unequal_file_hash_number_error (files_num hashes_num : Int) :
    Except String UnequalFileHashNumberError :=
  if files_num < 0 then
    .error "expected a non-negative number of files"
  else if hashes_num < 0 then
    .error "expected a non-negative number of hash values"
  else
    .ok ⟨files_num, hashes_num⟩

/-- A character is a lowercase hexadecimal digit: 0-9 or a-f. -/
def isLowerHexChar (c : Char) : Bool :=
  (decide ('0' ≤ c) && decide (c ≤ '9')) || (decide ('a' ≤ c) && decide (c ≤ 'f'))

/-- Every character of the string is a lowercase hexadecimal digit. -/
def isLowerHexString (s : String) : Bool :=
  s.data.all isLowerHexChar

/-- A concrete filesystem used to exercise the definitions: two files,
"a" and "b", resolving to "/a" and "/b", with known contents. -/
def fs_example : FileSystem :=
  { resolvePath := fun p =>
      if p = "a" then some "/a" else if p = "b" then some "/b" else none
  , contents := fun p =>
      if p = "/a" then some [104, 105]
      else if p = "/b" then some [1, 2] else none }

/-- A concrete stand-in for the hashlib primitive used to exercise the
definitions: the digest of the contents is the contents themselves. -/
def hash_example : String → List Nat → List Nat := fun _ data => data

/-- Every hex-nibble character produced for a value below 16 is a
lowercase hexadecimal digit. -/
theorem hexDigitChar_lower : ∀ n, n < 16 → isLowerHexChar (hexDigitChar n) = true := by
  decide

/-- The hexdigest encoding yields only lowercase hexadecimal digits. -/
theorem hexdigest_isLowerHex (bs : List Nat) : isLowerHexString (hexdigest bs) = true := by
  have h16 : (0 : Nat) < 16 := by norm_num
  simp only [isLowerHexString, hexdigest]
  rw [List.all_eq_true]
  intro c hc
  simp only [List.mem_flatMap, List.mem_cons, List.not_mem_nil, or_false] at hc
  obtain ⟨b, _, hcb | hcb⟩ := hc <;> subst hcb <;>
    exact hexDigitChar_lower _ (Nat.mod_lt _ h16)

/-- A digest returned successfully is a hexdigest encoding of some byte
list, hence a lowercase hexadecimal string. -/
theorem digest_ok_form (fsys : FileSystem) (hash : String → List Nat → List Nat)
    (file hash_func d : String)
    (hd : digest_hex_file_hash fsys hash file hash_func = .ok d) :
    ∃ bs, d = hexdigest bs := by
  cases hcont : fsys.contents file with
  | none => simp [digest_hex_file_hash, hcont] at hd
  | some data =>
    by_cases hm : hash_func ∈ hashlib_algorithms_guaranteed
    · refine ⟨hash hash_func data, ?_⟩
      simp [digest_hex_file_hash, hcont, hm] at hd
      exact hd.symm
    · simp [digest_hex_file_hash, hcont, hm] at hd

/-- C2: the claim states the accepted selector set is exactly
{md5, sha1, sha224, sha256, sha384, sha512}.  On the code this fails:
the _HashFunction enum spells its third member SHA225, so the program
rejects sha224 and accepts sha225 — an algorithm name that does not
exist, which hashlib refuses, so every digest attempt under the
accepted selector sha225 fails.  This theorem records the divergence. -/
theorem c2_selector_set_typo :
    "sha224" ∉ accepted_hash_functions ∧
    "sha225" ∈ accepted_hash_functions ∧
    "sha225" ∉ hashlib_algorithms_guaranteed ∧
    digest_hex_file_hash fs_example hash_example "/a" "sha225" =
      .error (.unsupportedAlgorithm "sha225") := by
  decide

/-- C3: with input sequences of unequal lengths, main raises
UnequalFileHashNumberError carrying both counts, producing no output;
the result is the same for every filesystem, so no file is resolved,
opened, or digested before the failure. -/
theorem c3_length_mismatch_fail_fast (fsys : FileSystem)
    (hash : String → List Nat → List Nat) (files expected_hashes : List String)
    (hash_func : String) (h : files.length ≠ expected_hashes.length) :
    main_run fsys hash files expected_hashes hash_func =
      ([], some (.unequalFileHashNumber files.length expected_hashes.length)) := by
  simp [main_run, h]

/-- Witness for C3 at a concrete input: two files against three hashes,
on an empty filesystem. -/
theorem c3_length_mismatch_fail_fast_witness :
    main_run ⟨fun _ => none, fun _ => none⟩ hash_example ["a", "b"]
        ["x", "y", "z"] "sha256" =
      ([], some (.unequalFileHashNumber 2 3)) :=
  c3_length_mismatch_fail_fast ⟨fun _ => none, fun _ => none⟩ hash_example
    ["a", "b"] ["x", "y", "z"] "sha256" (by decide)

/-- C6 counterexample: sha3_256 lies outside the closed set of six
supported algorithms (both the set named in the claim and the set the
program accepts), yet the digest operation succeeds under it instead of
failing: hashlib supports it. -/
theorem c6_counterexample_sha3_digests :
    "sha3_256" ∉ ["md5", "sha1", "sha224", "sha256", "sha384", "sha512"] ∧
    "sha3_256" ∉ accepted_hash_functions ∧
    digest_hex_file_hash fs_example hash_example "/a" "sha3_256" = .ok "6869" := by
  decide

/-- C6 amended: for every algorithm identifier the underlying hashlib
library does not support, the digest operation fails with an
unsupported-algorithm error rather than silently defaulting; an
identifier hashlib supports digests successfully even when it is
outside the program's six selectors. -/
theorem c6_amended_unknown_algorithm_errors (fsys : FileSystem)
    (hash : String → List Nat → List Nat) (file hash_func : String)
    (data : List Nat) (hc : fsys.contents file = some data)
    (halg : hash_func ∉ hashlib_algorithms_guaranteed) :
    digest_hex_file_hash fsys hash file hash_func =
      .error (.unsupportedAlgorithm hash_func) := by
  simp [digest_hex_file_hash, hc, halg]

/-- Witness for the amended C6 at a concrete input: the made-up
algorithm name foo is refused. -/
theorem c6_amended_unknown_algorithm_errors_witness :
    digest_hex_file_hash fs_example hash_example "/a" "foo" =
      .error (.unsupportedAlgorithm "foo") :=
  c6_amended_unknown_algorithm_errors fs_example hash_example "/a" "foo"
    [104, 105] (by decide) (by decide)

/-- C7: the digest operation is deterministic — two calls over identical
file contents with the same algorithm primitive and selector return
identical hexadecimal digest strings, whatever the paths and whatever
else the filesystems hold. -/
theorem c7_digest_deterministic (fs1 fs2 : FileSystem)
    (hash : String → List Nat → List Nat) (f1 f2 hash_func : String)
    (data : List Nat) (h1 : fs1.contents f1 = some data)
    (h2 : fs2.contents f2 = some data) :
    digest_hex_file_hash fs1 hash f1 hash_func =
      digest_hex_file_hash fs2 hash f2 hash_func := by
  simp [digest_hex_file_hash, h1, h2]

/-- Witness for C7 at a concrete input: the same contents behind two
different paths in two different filesystems digest identically. -/
theorem c7_digest_deterministic_witness :
    digest_hex_file_hash fs_example hash_example "/a" "sha256" =
      digest_hex_file_hash ⟨fun _ => none, fun p => if p = "/z" then some [104, 105] else none⟩
        hash_example "/z" "sha256" :=
  c7_digest_deterministic fs_example
    ⟨fun _ => none, fun p => if p = "/z" then some [104, 105] else none⟩
    hash_example "/a" "/z" "sha256" [104, 105] (by decide) (by decide)

/-- C9: on empty input sequences the comparison returns normally with no
mismatch records, no output lines and no error; the result is the same
for every filesystem and hash primitive, so no file is touched. -/
theorem c9_empty_batch (fsys : FileSystem) (hash : String → List Nat → List Nat)
    (hash_func : String) :
    compare_files_to_hashes fsys hash [] [] hash_func = ([], none) := rfl

/-- C10: constructing the exception from non-negative counts succeeds
and the two properties return exactly the stored counts; the class
derives from ValueError; a negative count makes the constructor fail
with an assertion message. -/
theorem c10_error_roundtrip (f h : Int) :
    (0 ≤ f → 0 ≤ h →
      ∃ e : UnequalFileHashNumberError,
        mk_unequal_file_hash_number_error f h = .ok e ∧
        e.files_num = f ∧ e.hashes_num = h ∧
        "ValueError" ∈ unequalFileHashNumberErrorBases) ∧
    ((f < 0 ∨ h < 0) →
      ∃ msg, mk_unequal_file_hash_number_error f h = .error msg) := by
  constructor
  · intro hf hh
    refine ⟨⟨f, h⟩, ?_, rfl, rfl, by decide⟩
    simp [mk_unequal_file_hash_number_error, not_lt.mpr hf, not_lt.mpr hh]
  · rintro (hneg | hneg)
    · exact ⟨"expected a non-negative number of files",
        by simp [mk_unequal_file_hash_number_error, hneg]⟩
    · by_cases hf : f < 0
      · exact ⟨"expected a non-negative number of files",
          by simp [mk_unequal_file_hash_number_error, hf]⟩
      · exact ⟨"expected a non-negative number of hash values",
          by simp [mk_unequal_file_hash_number_error, hf, hneg]⟩

/-- Witness for C10 at concrete counts: 2 and 3 round-trip, and a
negative files count is rejected. -/
theorem c10_error_roundtrip_witness :
    (∃ e : UnequalFileHashNumberError,
        mk_unequal_file_hash_number_error 2 3 = .ok e ∧
        e.files_num = 2 ∧ e.hashes_num = 3 ∧
        "ValueError" ∈ unequalFileHashNumberErrorBases) ∧
    (∃ msg, mk_unequal_file_hash_number_error (-1) 3 = .error msg) :=
  ⟨(c10_error_roundtrip 2 3).1 (by decide) (by decide),
   (c10_error_roundtrip (-1) 3).2 (Or.inl (by decide))⟩

/-- C1: for a pair whose digest succeeds, a mismatch record holding the
file, the computed digest and the original expected hash is emitted
exactly when the computed digest differs from the lower-cased expected
hash; when they agree under this case-folding, nothing is contributed
for the pair — no record and no output lines. -/
theorem c1_mismatch_iff_digest_differs (fsys : FileSystem)
    (hash : String → List Nat → List Nat) (file expected_hash : String)
    (fs_tail : List (Except PyErr String)) (hs_tail : List String)
    (hash_func file_hash : String)
    (hd : digest_hex_file_hash fsys hash file hash_func = .ok file_hash) :
    check_hash_mismatches fsys hash (.ok file :: fs_tail)
        (expected_hash :: hs_tail) hash_func =
      (if file_hash = str_lower expected_hash then
        check_hash_mismatches fsys hash fs_tail hs_tail hash_func
      else
        (⟨file, file_hash, expected_hash⟩ ::
           (check_hash_mismatches fsys hash fs_tail hs_tail hash_func).1,
         (check_hash_mismatches fsys hash fs_tail hs_tail hash_func).2)) ∧
    (compare_files_to_hashes fsys hash (.ok file :: fs_tail)
        (expected_hash :: hs_tail) hash_func).1 =
      (if file_hash = str_lower expected_hash then []
       else mismatch_report_lines ⟨file, file_hash, expected_hash⟩) ++
      (compare_files_to_hashes fsys hash fs_tail hs_tail hash_func).1 := by
  by_cases hc : file_hash = str_lower expected_hash <;>
    simp [check_hash_mismatches, compare_files_to_hashes, hd, hc]

/-- Witness for C1 at a concrete input: one file with digest 6869
against the expected hash DEAD. -/
theorem c1_mismatch_iff_digest_differs_witness :
    (check_hash_mismatches fs_example hash_example [Except.ok "/a"] ["DEAD"] "sha256" =
      (if "6869" = str_lower "DEAD" then
        check_hash_mismatches fs_example hash_example [] [] "sha256"
      else
        (⟨"/a", "6869", "DEAD"⟩ ::
           (check_hash_mismatches fs_example hash_example [] [] "sha256").1,
         (check_hash_mismatches fs_example hash_example [] [] "sha256").2))) ∧
    (compare_files_to_hashes fs_example hash_example [Except.ok "/a"] ["DEAD"] "sha256").1 =
      (if "6869" = str_lower "DEAD" then []
       else mismatch_report_lines ⟨"/a", "6869", "DEAD"⟩) ++
      (compare_files_to_hashes fs_example hash_example [] [] "sha256").1 :=
  c1_mismatch_iff_digest_differs fs_example hash_example "/a" "DEAD" [] []
    "sha256" "6869" (by decide)

/-- C4: when the file stream raises while being pulled (resolution
failure) or the digest of the pulled file raises (open or read
failure), the error propagates: the pairs after the failing one
contribute nothing whatever they are, and the mismatches already
yielded for the pairs before it are exactly those of the prefix run. -/
theorem c4_access_error_halts (fsys : FileSystem)
    (hash : String → List Nat → List Nat) (hash_func : String) :
    ∀ (pre preH : List String), pre.length = preH.length →
    (∀ fi ∈ pre, ∃ d, digest_hex_file_hash fsys hash fi hash_func = Except.ok d) →
    ∀ (bad : Except PyErr String) (e : PyErr),
      (bad = .error e ∨
        ∃ fi, bad = .ok fi ∧
          digest_hex_file_hash fsys hash fi hash_func = .error e) →
    ∀ (eh : String) (postF : List (Except PyErr String)) (postH : List String),
      check_hash_mismatches fsys hash (pre.map .ok ++ bad :: postF)
          (preH ++ eh :: postH) hash_func =
        ((check_hash_mismatches fsys hash (pre.map .ok) preH hash_func).1,
         some e) := by
  intro pre
  induction pre with
  | nil =>
    rintro (_ | ⟨q, qt⟩) hlen hok bad e hbad eh postF postH
    · rcases hbad with rfl | ⟨fi, rfl, hdig⟩
      · simp [check_hash_mismatches]
      · simp [check_hash_mismatches, hdig]
    · simp at hlen
  | cons p pt ih =>
    rintro (_ | ⟨q, qt⟩) hlen hok bad e hbad eh postF postH
    · simp at hlen
    · obtain ⟨d, hd⟩ := hok p (List.mem_cons_self _ _)
      have hlen' : pt.length = qt.length := by simpa using hlen
      have hok' : ∀ fi ∈ pt, ∃ d,
          digest_hex_file_hash fsys hash fi hash_func = Except.ok d :=
        fun fi hfi => hok fi (List.mem_cons_of_mem _ hfi)
      have hrec := ih qt hlen' hok' bad e hbad eh postF postH
      by_cases hc : d = str_lower q <;>
        simp [check_hash_mismatches, hd, hc, hrec]

/-- Witness for C4 at a concrete input: one good pair, then a file whose
digest raises, then one further pair that is never processed. -/
theorem c4_access_error_halts_witness :
    check_hash_mismatches fs_example hash_example
        (["/a"].map Except.ok ++ Except.ok "/missing" :: [Except.ok "/b"])
        (["DEAD"] ++ "00" :: ["0102"]) "sha256" =
      ((check_hash_mismatches fs_example hash_example
          (["/a"].map Except.ok) ["DEAD"] "sha256").1,
       some (PyErr.fileNotFound "/missing")) :=
  c4_access_error_halts fs_example hash_example "sha256" ["/a"] ["DEAD"]
    (by decide)
    (by intro fi hfi
        simp only [List.mem_singleton] at hfi
        subst hfi
        exact ⟨"6869", by decide⟩)
    (Except.ok "/missing") (PyErr.fileNotFound "/missing")
    (Or.inr ⟨"/missing", rfl, by decide⟩) "00" [Except.ok "/b"] ["0102"]

/-- When every file digests successfully and the lengths agree, the
mismatch generator yields exactly the positional filter of the zipped
pairs, in input order, and raises nothing. -/
theorem check_hash_mismatches_all_ok (fsys : FileSystem)
    (hash : String → List Nat → List Nat) (hash_func : String) :
    ∀ (files expected_hashes : List String),
    files.length = expected_hashes.length →
    (∀ fi ∈ files, ∃ d, digest_hex_file_hash fsys hash fi hash_func = Except.ok d) →
    check_hash_mismatches fsys hash (files.map .ok) expected_hashes hash_func =
      ((files.zip expected_hashes).filterMap (fun p =>
          match digest_hex_file_hash fsys hash p.1 hash_func with
          | .ok d => if d = str_lower p.2 then none else some (HashesMismatch.mk p.1 d p.2)
          | .error _ => none), none) := by
  intro files
  induction files with
  | nil =>
    rintro (_ | ⟨q, qt⟩) hlen hok
    · rfl
    · simp at hlen
  | cons p pt ih =>
    rintro (_ | ⟨q, qt⟩) hlen hok
    · simp at hlen
    · obtain ⟨d, hd⟩ := hok p (List.mem_cons_self _ _)
      have hlen' : pt.length = qt.length := by simpa using hlen
      have hok' : ∀ fi ∈ pt, ∃ d,
          digest_hex_file_hash fsys hash fi hash_func = Except.ok d :=
        fun fi hfi => hok fi (List.mem_cons_of_mem _ hfi)
      have hrec := ih qt hlen' hok'
      by_cases hc : d = str_lower q <;>
        simp [check_hash_mismatches, List.zip_cons_cons, List.filterMap_cons,
          hd, hc, hrec]

/-- C5: over equal-length inputs whose digests all succeed, the printed
lines are exactly the report blocks of the mismatching pairs,
concatenated in input order, one block per mismatch; when every pair
matches nothing at all is printed. -/
theorem c5_report_blocks_in_order (fsys : FileSystem)
    (hash : String → List Nat → List Nat)
    (files expected_hashes : List String) (hash_func : String)
    (hlen : files.length = expected_hashes.length)
    (hok : ∀ fi ∈ files, ∃ d,
      digest_hex_file_hash fsys hash fi hash_func = Except.ok d) :
    compare_files_to_hashes fsys hash (files.map .ok) expected_hashes hash_func =
      (((files.zip expected_hashes).filterMap (fun p =>
          match digest_hex_file_hash fsys hash p.1 hash_func with
          | .ok d => if d = str_lower p.2 then none else some (HashesMismatch.mk p.1 d p.2)
          | .error _ => none)).flatMap mismatch_report_lines, none) ∧
    ((∀ p ∈ files.zip expected_hashes, ∀ d,
        digest_hex_file_hash fsys hash p.1 hash_func = Except.ok d →
          d = str_lower p.2) →
      compare_files_to_hashes fsys hash (files.map .ok) expected_hashes hash_func =
        ([], none)) := by
  have hc := check_hash_mismatches_all_ok fsys hash hash_func files
    expected_hashes hlen hok
  constructor
  · simp [compare_files_to_hashes, hc]
  · intro hall
    have hnil : (files.zip expected_hashes).filterMap (fun p =>
        match digest_hex_file_hash fsys hash p.1 hash_func with
        | .ok d => if d = str_lower p.2 then none else some (HashesMismatch.mk p.1 d p.2)
        | .error _ => none) = [] := by
      rw [List.filterMap_eq_nil_iff]
      intro p hp
      obtain ⟨d, hd⟩ := hok p.1 (List.of_mem_zip hp).1
      simp [hd, hall p hp d hd]
    simp [compare_files_to_hashes, hc, hnil]

/-- Witness for C5 at a concrete input: two files, the first
mismatching and the second matching. -/
theorem c5_report_blocks_in_order_witness :
    compare_files_to_hashes fs_example hash_example
        (["/a", "/b"].map Except.ok) ["DEAD", "0102"] "sha256" =
      (((["/a", "/b"].zip ["DEAD", "0102"]).filterMap (fun p =>
          match digest_hex_file_hash fs_example hash_example p.1 "sha256" with
          | .ok d => if d = str_lower p.2 then none else some (HashesMismatch.mk p.1 d p.2)
          | .error _ => none)).flatMap mismatch_report_lines, none) ∧
    ((∀ p ∈ (["/a", "/b"].zip ["DEAD", "0102"]), ∀ d,
        digest_hex_file_hash fs_example hash_example p.1 "sha256" = Except.ok d →
          d = str_lower p.2) →
      compare_files_to_hashes fs_example hash_example
          (["/a", "/b"].map Except.ok) ["DEAD", "0102"] "sha256" =
        ([], none)) :=
  c5_report_blocks_in_order fs_example hash_example ["/a", "/b"]
    ["DEAD", "0102"] "sha256" (by decide)
    (by intro fi hfi
        simp only [List.mem_cons, List.not_mem_nil, or_false] at hfi
        rcases hfi with rfl | rfl
        · exact ⟨"6869", by decide⟩
        · exact ⟨"0102", by decide⟩)

/-- C8: an expected hash whose lower-cased form is not a lowercase
hexadecimal string of the computed digest's length can never equal the
computed digest, so (the digest having succeeded) the pair is reported
as an ordinary mismatch, not as an error. -/
theorem c8_malformed_expected_is_mismatch (fsys : FileSystem)
    (hash : String → List Nat → List Nat) (file expected_hash : String)
    (fs_tail : List (Except PyErr String)) (hs_tail : List String)
    (hash_func file_hash : String)
    (hd : digest_hex_file_hash fsys hash file hash_func = .ok file_hash)
    (hmal : ¬ (isLowerHexString (str_lower expected_hash) = true ∧
               (str_lower expected_hash).length = file_hash.length)) :
    check_hash_mismatches fsys hash (.ok file :: fs_tail)
        (expected_hash :: hs_tail) hash_func =
      (⟨file, file_hash, expected_hash⟩ ::
         (check_hash_mismatches fsys hash fs_tail hs_tail hash_func).1,
       (check_hash_mismatches fsys hash fs_tail hs_tail hash_func).2) := by
  obtain ⟨bs, rfl⟩ := digest_ok_form fsys hash file hash_func file_hash hd
  have hne : ¬ (hexdigest bs = str_lower expected_hash) := by
    intro heq
    exact hmal ⟨by rw [← heq]; exact hexdigest_isLowerHex bs, by rw [← heq]⟩
  simp [check_hash_mismatches, hd, hne]

/-- Witness for C8 at a concrete input: the expected hash ZZ is not
hexadecimal, so the pair is reported as a mismatch. -/
theorem c8_malformed_expected_is_mismatch_witness :
    check_hash_mismatches fs_example hash_example [Except.ok "/a"] ["ZZ"] "sha256" =
      (⟨"/a", "6869", "ZZ"⟩ ::
         (check_hash_mismatches fs_example hash_example [] [] "sha256").1,
       (check_hash_mismatches fs_example hash_example [] [] "sha256").2) :=
  c8_malformed_expected_is_mismatch fs_example hash_example "/a" "ZZ" [] []
    "sha256" "6869" (by decide) (by decide)
